import Mathlib

/-!
Verification of the change-aware submission pipeline in
`src/useSubmitter.ts` (react-form-submitter).

The file holds two variants of the hook:
* the `onFailure` variant (lines 1-174): `submitter`, with helpers
  `to_form_data_without_default`, `without_defaults`, `is_same_values`,
  `is_same_files`;
* the `reset` variant (lines 175-367): `submitterReset` here, which adds a
  `reset` hook and routes the post-success `mutate` call through
  `mutate_data`, which mutates the caller's `default_values` object in place.

JavaScript values are embedded as `JsValue`: primitives carry their value,
files carry their metadata plus a numeric reference identity, and other
objects carry a reference identity plus the string `JSON.stringify` would
produce for them (serialization of an arbitrary object is data of the model,
not recomputed).  Strict equality `===` on objects and files is reference
equality; in any well-formed heap two file values with the same reference
also agree on metadata.  Records (`Object` mappings) are association lists
in `Object.entries` order with the JS guarantee of distinct keys left
implicit (statements are phrased over entry membership, so they do not need
it).  Asynchronous plumbing (`async`/`await`) is sequential in the source
(every await is immediately sequenced), so the embedding is direct.
-/

/-- Metadata of a `File` compared by `is_same_files`:
name, byte size, media type, last-modified stamp. -/
structure FileMeta where
  name : String
  size : Nat
  type : String
  lastModified : Int
deriving DecidableEq, Repr

/-- A JavaScript value as the pipeline sees it.  `file` and `obj` carry a
reference identity (`ref`); `obj` also carries the JSON serialization the
source would obtain from `JSON.stringify`. -/
inductive JsValue where
  | undefined
  | null
  | bool (b : Bool)
  | num (n : Int)
  | str (s : String)
  | file (meta : FileMeta) (ref : Nat)
  | obj (ref : Nat) (json : String)
deriving DecidableEq, Repr

/-- JavaScript truthiness of an embedded value
(`undefined`, `null`, `false`, `0`, `""` are falsy; objects and files are
always truthy).  `NaN` is outside the model (numbers are integers). -/
def JsValue.truthy : JsValue → Bool
  | .undefined => false
  | .null => false
  | .bool b => b
  | .num n => n != 0
  | .str s => s != ""
  | .file _ _ => true
  | .obj _ _ => true

/-- JavaScript strict equality `===`.  Values of different runtime shapes
are never strictly equal; objects and files compare by reference. -/
def JsValue.strictEq : JsValue → JsValue → Bool
  | .undefined, .undefined => true
  | .null, .null => true
  | .bool a, .bool b => a == b
  | .num a, .num b => a == b
  | .str a, .str b => a == b
  | .file _ r1, .file _ r2 => r1 == r2
  | .obj r1 _, .obj r2 _ => r1 == r2
  | _, _ => false

/-- Loose equality against `undefined` (`x == undefined` in the source of
`mutate_data`): true exactly for `undefined` and `null`. -/
def JsValue.isNullish : JsValue → Bool
  | .undefined => true
  | .null => true
  | _ => false

/-- Is the value a `File` (the `value instanceof File` test)? -/
def JsValue.isFile : JsValue → Bool
  | .file _ _ => true
  | _ => false

/-- Is the value a string (the `typeof value == "string"` test)? -/
def JsValue.isStr : JsValue → Bool
  | .str _ => true
  | _ => false

/-- The string `JSON.stringify` produces for a value, as the encoding stage
uses it.  Strings never reach this function in the encoding path (they are
included verbatim), so their clause models the unescaped common case;
`JSON.stringify` of a `File` is `"{}"` (no own enumerable properties);
`JSON.stringify(undefined)` is the value `undefined`, which
`FormData.append` then coerces to the string `"undefined"`. -/
def JsValue.stringify : JsValue → String
  | .undefined => "undefined"
  | .null => "null"
  | .bool true => "true"
  | .bool false => "false"
  | .num n => toString n
  | .str s => "\"" ++ s ++ "\""
  | .file _ _ => "\x7b\x7d"
  | .obj _ json => json

/-- A JS object: entries in `Object.entries` order. -/
abbrev Record := List (String × JsValue)

/-- Property access `r[k]`: the value at `k`, or `undefined` when absent. -/
def Record.lookupD (r : Record) (k : String) : JsValue :=
  match r.find? (fun kv => kv.1 == k) with
  | some kv => kv.2
  | none => .undefined

/-- `is_same_files` (source lines 167-174): two files are the same iff they
agree on name, size, type and lastModified (content bytes not compared). -/
def is_same_files (file default_file : FileMeta) : Bool :=
  file.name == default_file.name &&
  file.size == default_file.size &&
  file.type == default_file.type &&
  file.lastModified == default_file.lastModified

/-- `is_same_values` (source lines 154-165): a falsy default is never equal;
a file compares to a file by metadata and to anything else unequal;
all other pairs compare by strict equality. -/
def is_same_values (value default_value : JsValue) : Bool :=
  if !default_value.truthy then false
  else match value with
    | .file m _ =>
      match default_value with
      | .file dm _ => is_same_files m dm
      | _ => false
    | v => v.strictEq default_value

/-- `without_defaults` (source lines 139-152): with no baseline return the
values unchanged; otherwise keep exactly the entries whose value is not
`is_same_values`-equal to the baseline entry at the same key. -/
def without_defaults (values : Record) (defaultValues : Option Record) : Record :=
  match defaultValues with
  | none => values
  | some dv => List.filter (fun kv => !is_same_values kv.2 (dv.lookupD kv.1)) values

/-- A value as it sits in the `FormData` payload: a string or a file. -/
inductive FormValue where
  | str (s : String)
  | file (meta : FileMeta) (ref : Nat)
deriving DecidableEq, Repr

/-- The conversion one appended value undergoes (source lines 128-131):
strings and files verbatim, everything else via `JSON.stringify`. -/
def encodeFormValue (v : JsValue) : FormValue :=
  match v with
  | .str s => .str s
  | .file m r => .file m r
  | v => .str v.stringify

/-- The `FormData` payload: appended (key, value) pairs in order. -/
abbrev FormPayload := List (String × FormValue)

/-- `to_form_data_without_default` (source lines 118-137): walk the entries;
append an entry unless a baseline is given and the baseline entry is
`is_same_values`-equal; encode each appended value per `encodeFormValue`. -/
def to_form_data_without_default : Record → Option Record → FormPayload
  | [], _ => []
  | (k, v) :: rest, default_data =>
    let keep : Bool :=
      match default_data with
      | none => true
      | some dd => !is_same_values v (dd.lookupD k)
    let tail := to_form_data_without_default rest default_data
    if keep then (k, encodeFormValue v) :: tail else tail

/-- The confirmation guard `confirmation && !confirm(confirmation)`
(source lines 70 and 248): the prompt happens only when a confirmation
message is configured and truthy, i.e. a nonempty string. -/
def confirmationGate (confirmation : Option String) : Bool :=
  match confirmation with
  | some m => m != ""
  | none => false

/-- An opaque thrown JavaScript exception value. -/
structure Exn where
  id : Nat
deriving DecidableEq, Repr

/-- A `fetch` `Response` as the pipeline reads it: the `ok` flag and the
status code retained for the callback arguments. -/
structure Response where
  ok : Bool
  status : Nat
deriving DecidableEq, Repr

/-- The `destination` argument: an endpoint URL string, or a callback
(whose behaviour on this call is supplied by the environment). -/
inductive Destination where
  | endpoint (url : String)
  | callback
deriving DecidableEq, Repr

/-- A request body as `fetch` receives it: either the `FormData` the
pipeline constructed, or a caller-supplied raw body. -/
inductive BodyInit where
  | form (payload : FormPayload)
  | raw (s : String)
deriving DecidableEq, Repr

/-- The caller-supplied `fetchOptions` (`RequestInit`).  The source spreads
it after the constructed `method` and `body`
(`{ method, body: formData, ...fetchOptions }`, lines 77-81 and 255-259),
so a `method` or `body` key present in it overrides the constructed one;
`method`/`body` here are `some` exactly when the caller's options object
carries that key, and `extra` holds the remaining options. -/
structure FetchOptions where
  method : Option String
  body : Option BodyInit
  extra : List (String × String)
deriving DecidableEq, Repr

/-- The options object of the `onFailure` variant (source lines 46-56).
Optional callbacks are modelled by presence flags (the source guards each
invocation with `if (callback)`); `transform` is the function itself, which
may throw (`Except.error`). -/
structure Config where
  destination : Destination
  defaultValues : Option Record
  method : Option String
  hasOnSuccess : Bool
  hasOnFailure : Bool
  hasOnError : Bool
  transform : Option (Record → Except Exn Record)
  fetchOptions : FetchOptions
  confirmation : Option String
  hasMutate : Bool

/-- The external world of one call: the answer `confirm` would give, what
`fetch` would do (return a response or throw), and what a callback
destination would do (return a boolean, possibly via a promise, or throw). -/
structure Env where
  confirmAnswer : Bool
  fetchResult : Except Exn Response
  destResult : Except Exn Bool
deriving Repr

/-- One observed invocation of `fetch`: URL, then the request record after
the spread — the constructed method (configured or "POST") and constructed
`FormData` body unless the caller's `fetchOptions`, spread after them,
overrides one of those keys — plus the remaining spread options. -/
structure FetchCall where
  url : String
  method : String
  body : BodyInit
  extra : List (String × String)
deriving DecidableEq, Repr

/-- The observable outcome of one `submitter(data, event?)` call of the
`onFailure` variant.  Each callback field lists the invocations of that
callback in order (the straight-line source makes each at most one);
`rejected` is the exception with which the returned promise rejects, if
any; `isFailed` is the flag value after the call completes. -/
structure SubmitResult where
  rejected : Option Exn
  prevented : Bool
  confirmPrompted : Bool
  fetchCalls : List FetchCall
  destCalls : List Record
  onSuccessCalls : List (Record × Option Response)
  onFailureCalls : List (Record × Option Response)
  onErrorCalls : List Exn
  mutateCalls : List Record
  isFailed : Bool
deriving DecidableEq, Repr

/-- Applying the optional transform (source line 66:
`transform ? transform(data) : data`). -/
def applyTransform (t : Option (Record → Except Exn Record)) (data : Record) :
    Except Exn Record :=
  match t with
  | none => .ok data
  | some f => f data

/-- The `submitter` of the `onFailure` variant (source lines 63-101).
`prevFailed` is the flag value before the call.  The transform runs before
the `try` block, so an exception it throws rejects the returned promise;
`confirm` gates the `try` block; inside it the endpoint branch encodes and
fetches while the callback branch diffs and invokes the destination;
`onFailure` fires inside `try` on a non-ok outcome; a caught exception goes
to `onError`; the `finally` block sets the flag and, on success, fires
`onSuccess` then `mutate` with the transformed data. -/
def submitter (cfg : Config) (env : Env) (data : Record) (hasEvent : Bool)
    (prevFailed : Bool) : SubmitResult :=
  let prevented := hasEvent
  match applyTransform cfg.transform data with
  | .error e =>
    { rejected := some e, prevented, confirmPrompted := false, fetchCalls := [],
      destCalls := [], onSuccessCalls := [], onFailureCalls := [],
      onErrorCalls := [], mutateCalls := [], isFailed := prevFailed }
  | .ok transformedData =>
    if confirmationGate cfg.confirmation && !env.confirmAnswer then
      { rejected := none, prevented, confirmPrompted := true, fetchCalls := [],
        destCalls := [], onSuccessCalls := [], onFailureCalls := [],
        onErrorCalls := [], mutateCalls := [], isFailed := prevFailed }
    else
      let confirmPrompted := confirmationGate cfg.confirmation
      match cfg.destination with
      | .endpoint url =>
        let formData := to_form_data_without_default transformedData cfg.defaultValues
        let call : FetchCall :=
          { url,
            method := cfg.fetchOptions.method.getD (cfg.method.getD "POST"),
            body := cfg.fetchOptions.body.getD (.form formData),
            extra := cfg.fetchOptions.extra }
        match env.fetchResult with
        | .error e =>
          { rejected := none, prevented, confirmPrompted, fetchCalls := [call],
            destCalls := [], onSuccessCalls := [], onFailureCalls := [],
            onErrorCalls := if cfg.hasOnError then [e] else [],
            mutateCalls := [], isFailed := true }
        | .ok response =>
          let submitOk := response.ok
          { rejected := none, prevented, confirmPrompted, fetchCalls := [call],
            destCalls := [],
            onSuccessCalls :=
              if submitOk && cfg.hasOnSuccess then [(transformedData, some response)] else [],
            onFailureCalls :=
              if !submitOk && cfg.hasOnFailure then [(transformedData, some response)] else [],
            onErrorCalls := [],
            mutateCalls := if submitOk && cfg.hasMutate then [transformedData] else [],
            isFailed := !submitOk }
      | .callback =>
        let diffed := without_defaults transformedData cfg.defaultValues
        match env.destResult with
        | .error e =>
          { rejected := none, prevented, confirmPrompted, fetchCalls := [],
            destCalls := [diffed], onSuccessCalls := [], onFailureCalls := [],
            onErrorCalls := if cfg.hasOnError then [e] else [],
            mutateCalls := [], isFailed := true }
        | .ok ok =>
          { rejected := none, prevented, confirmPrompted, fetchCalls := [],
            destCalls := [diffed],
            onSuccessCalls :=
              if ok && cfg.hasOnSuccess then [(transformedData, none)] else [],
            onFailureCalls :=
              if !ok && cfg.hasOnFailure then [(transformedData, none)] else [],
            onErrorCalls := [],
            mutateCalls := if ok && cfg.hasMutate then [transformedData] else [],
            isFailed := !ok }

/-- `mutate_data` (source lines 347-367), as the value `mutate` receives.
Without a baseline it is the data itself.  With a baseline, the source
aliases the baseline object (`let new_data = default_values as T`) and,
for each baseline key, overwrites the entry with the submitted value
exactly when the old value or the new value is `== undefined` (loose:
`undefined` or `null`); it then calls `mutate` on that same object. -/
def mutate_data (data : Record) (default_values : Option Record) : Record :=
  match default_values with
  | none => data
  | some dv =>
    List.map (fun kv =>
      let old_value := kv.2
      let new_value := data.lookupD kv.1
      if old_value.isNullish || new_value.isNullish then (kv.1, new_value) else kv) dv

/-- The options object of the `reset` variant (source lines 224-234):
like `Config` but with a `reset` hook instead of an `on_failure` callback. -/
structure ConfigReset where
  destination : Destination
  default_values : Option Record
  hasReset : Bool
  method : Option String
  hasOnSuccess : Bool
  hasOnError : Bool
  transform : Option (Record → Except Exn Record)
  fetch_options : FetchOptions
  confirmation : Option String
  hasMutate : Bool

/-- The observable outcome of one call of the `reset` variant.  `resetCalls`
lists the arguments of `reset` invocations (`none` for the no-argument call
on success, `some raw` for the raw-data call on failure).
`defaultValuesAfter` is the content of the caller's `default_values` object
after the call: `mutate_data` writes into that very object, so a successful
call with a baseline and a `mutate` hook leaves it holding the merged value
passed to `mutate`. -/
structure SubmitResetResult where
  rejected : Option Exn
  prevented : Bool
  confirmPrompted : Bool
  fetchCalls : List FetchCall
  destCalls : List Record
  onSuccessCalls : List (Record × Option Response)
  onErrorCalls : List Exn
  resetCalls : List (Option Record)
  mutateCalls : List Record
  isFailed : Bool
  defaultValuesAfter : Option Record
deriving DecidableEq, Repr

/-- The `submitter` of the `reset` variant (source lines 241-292).  Same
shape as the `onFailure` variant except: no failure callback; the `finally`
block calls `reset()` and then `on_success` and `mutate` on success, or
`reset(data)` (raw data) on non-success; the `mutate` call goes through
`mutate_data`, which mutates `default_values` in place. -/
def submitterReset (cfg : ConfigReset) (env : Env) (data : Record)
    (hasEvent : Bool) (prevFailed : Bool) : SubmitResetResult :=
  let prevented := hasEvent
  match applyTransform cfg.transform data with
  | .error e =>
    { rejected := some e, prevented, confirmPrompted := false, fetchCalls := [],
      destCalls := [], onSuccessCalls := [], onErrorCalls := [],
      resetCalls := [], mutateCalls := [], isFailed := prevFailed,
      defaultValuesAfter := cfg.default_values }
  | .ok transed_data =>
    if confirmationGate cfg.confirmation && !env.confirmAnswer then
      { rejected := none, prevented, confirmPrompted := true, fetchCalls := [],
        destCalls := [], onSuccessCalls := [], onErrorCalls := [],
        resetCalls := [], mutateCalls := [], isFailed := prevFailed,
        defaultValuesAfter := cfg.default_values }
    else
      let confirmPrompted := confirmationGate cfg.confirmation
      let finallyPart (submitOk : Bool) (response : Option Response)
          (caught : Option Exn) (fetchCalls : List FetchCall)
          (destCalls : List Record) : SubmitResetResult :=
        if submitOk then
          { rejected := none, prevented, confirmPrompted, fetchCalls, destCalls,
            onSuccessCalls :=
              if cfg.hasOnSuccess then [(transed_data, response)] else [],
            onErrorCalls := caught.toList.filter (fun _ => cfg.hasOnError),
            resetCalls := if cfg.hasReset then [none] else [],
            mutateCalls :=
              if cfg.hasMutate then [mutate_data transed_data cfg.default_values] else [],
            isFailed := false,
            defaultValuesAfter :=
              if cfg.hasMutate then
                (cfg.default_values.map (fun dv => mutate_data transed_data (some dv)))
              else cfg.default_values }
        else
          { rejected := none, prevented, confirmPrompted, fetchCalls, destCalls,
            onSuccessCalls := [],
            onErrorCalls := caught.toList.filter (fun _ => cfg.hasOnError),
            resetCalls := if cfg.hasReset then [some data] else [],
            mutateCalls := [], isFailed := true,
            defaultValuesAfter := cfg.default_values }
      match cfg.destination with
      | .endpoint url =>
        let form_data := to_form_data_without_default transed_data cfg.default_values
        let call : FetchCall :=
          { url,
            method := cfg.fetch_options.method.getD (cfg.method.getD "POST"),
            body := cfg.fetch_options.body.getD (.form form_data),
            extra := cfg.fetch_options.extra }
        match env.fetchResult with
        | .error e => finallyPart false none (some e) [call] []
        | .ok response => finallyPart response.ok (some response) none [call] []
      | .callback =>
        let diffed := without_defaults transed_data cfg.default_values
        match env.destResult with
        | .error e => finallyPart false none (some e) [] [diffed]
        | .ok ok => finallyPart ok none none [] [diffed]

/-- The equality rule as the spec words it (§4.3 without the truthiness
clause, for comparison with `is_same_values`): file-like values are equal
iff they agree on name, size, type and lastModified; all other values are
equal iff strictly identical. -/
def specEqualRule (v d : JsValue) : Bool :=
  match v, d with
  | .file m _, .file dm _ =>
    m.name == dm.name && m.size == dm.size && m.type == dm.type &&
      m.lastModified == dm.lastModified
  | v, d => v.strictEq d

/-- The code's per-entry equality decomposes into the spec's two clauses:
a truthy baseline entry and the file/strict rule. -/
theorem is_same_values_eq_truthy_and_rule (v d : JsValue) :
    is_same_values v d = (d.truthy && specEqualRule v d) := by
  cases v <;> cases d <;>
    simp [is_same_values, specEqualRule, JsValue.truthy, JsValue.strictEq,
      is_same_files, Bool.and_assoc] <;>
    tauto

/-- C1: for every transformed data mapping and every configured baseline,
the diff (the value passed to a callback destination, and the entry set
encoded for an endpoint) excludes an entry iff the baseline has a truthy
value at its key that is equal to the entry's value per the file/strict
rules; with no baseline the diff is the full data. -/
theorem diff_excludes_iff_truthy_and_equal (values ds : Record) (k : String)
    (v : JsValue) (hmem : (k, v) ∈ values) :
    without_defaults values none = values ∧
    ((k, v) ∉ without_defaults values (some ds) ↔
      (ds.lookupD k).truthy = true ∧ specEqualRule v (ds.lookupD k) = true) := by
  refine ⟨rfl, ?_⟩
  simp [without_defaults, List.mem_filter, hmem, is_same_values_eq_truthy_and_rule]

/-- C1 at a concrete input: baseline `{a: "x", b: 0}` against data
`{a: "x", b: 7}` excludes `a` (truthy and strictly equal) and the rule
decomposition holds there. -/
theorem diff_excludes_iff_truthy_and_equal_witness :
    (("a", JsValue.str "x") ∈
      ([("a", JsValue.str "x"), ("b", JsValue.num 7)] : Record)) ∧
    (("a", JsValue.str "x") ∉
      without_defaults [("a", JsValue.str "x"), ("b", JsValue.num 7)]
        (some [("a", JsValue.str "x"), ("b", JsValue.num 0)])) := by
  refine ⟨by decide, ?_⟩
  exact (diff_excludes_iff_truthy_and_equal
    [("a", JsValue.str "x"), ("b", JsValue.num 7)]
    [("a", JsValue.str "x"), ("b", JsValue.num 0)] "a" (JsValue.str "x")
    (by decide)).2.mpr (by decide)

/-- The encoding loop is the diff followed by per-value encoding: the
payload has exactly the entries that survive the diff, in order. -/
theorem to_form_data_eq_map_diff (data : Record) (dd : Option Record) :
    to_form_data_without_default data dd =
      (without_defaults data dd).map (fun kv => (kv.1, encodeFormValue kv.2)) := by
  induction data with
  | nil => cases dd <;> rfl
  | cons kv rest ih =>
    obtain ⟨k, v⟩ := kv
    cases dd with
    | none =>
      simpa [to_form_data_without_default, without_defaults] using ih
    | some d =>
      simp only [to_form_data_without_default, without_defaults,
        List.filter_cons] at ih ⊢
      by_cases h : is_same_values v (d.lookupD k) = true
      · simp [h, ih]
      · simp [Bool.eq_false_iff.mpr h, ih]

/-- C8: the encoded payload contains exactly the entries surviving the diff
(an entry filtered out is absent entirely), each value verbatim when it is a
string or a file and as its JSON serialization otherwise; in particular with
baseline `{name: "Nir", age: 30}` and data `{name: "Nir", age: 31}` the
payload holds `age=31` and omits `name`. -/
theorem payload_is_encoded_diff (data : Record) (dd : Option Record)
    (v : JsValue) :
    to_form_data_without_default data dd =
      (without_defaults data dd).map (fun kv => (kv.1, encodeFormValue kv.2)) ∧
    (∀ s, encodeFormValue (.str s) = .str s) ∧
    (∀ m r, encodeFormValue (.file m r) = .file m r) ∧
    (v.isStr = false → v.isFile = false → encodeFormValue v = .str v.stringify) ∧
    to_form_data_without_default
        [("name", JsValue.str "Nir"), ("age", JsValue.num 31)]
        (some [("name", JsValue.str "Nir"), ("age", JsValue.num 30)]) =
      [("age", FormValue.str "31")] := by
  refine ⟨to_form_data_eq_map_diff data dd, fun s => rfl, fun m r => rfl, ?_, by decide⟩
  cases v <;> simp [JsValue.isStr, JsValue.isFile, encodeFormValue]

/-- C8 at a concrete input: a boolean value (neither string nor file) is
serialized, and the bundled facts hold at `data = {flag: true}`. -/
theorem payload_is_encoded_diff_witness :
    JsValue.isStr (JsValue.bool true) = false ∧
    JsValue.isFile (JsValue.bool true) = false ∧
    encodeFormValue (JsValue.bool true) = .str "true" := by
  refine ⟨by decide, by decide, ?_⟩
  exact ((payload_is_encoded_diff [("flag", JsValue.bool true)] none
    (JsValue.bool true)).2.2.2.1 (by decide) (by decide)).trans (by decide)

/-- C2 counterexample: with a transform that throws and `onError`
configured, the returned promise rejects with that exception and `onError`
does not fire — the transform call sits before the `try` block
(source line 66 against line 71), so its exception escapes to the caller. -/
theorem submitter_rejects_when_transform_throws :
    submitter
      { destination := .callback, defaultValues := none, method := none,
        hasOnSuccess := true, hasOnFailure := true, hasOnError := true,
        transform := some (fun _ => .error ⟨7⟩), fetchOptions := ⟨none, none, []⟩,
        confirmation := none, hasMutate := true }
      { confirmAnswer := true, fetchResult := .ok ⟨true, 200⟩,
        destResult := .ok true }
      [("a", JsValue.num 1)] false false =
    { rejected := some ⟨7⟩, prevented := false, confirmPrompted := false,
      fetchCalls := [], destCalls := [], onSuccessCalls := [],
      onFailureCalls := [], onErrorCalls := [], mutateCalls := [],
      isFailed := false } := rfl

/-- C2 amended: the promise never rejects provided the transform does not
throw — every exception raised inside the `try` block is caught there — and
when the transform does throw, the promise rejects with that exception. -/
theorem submitter_rejects_iff_transform_throws (cfg : Config) (env : Env)
    (data : Record) (hasEvent prevFailed : Bool) :
    ((∃ td, applyTransform cfg.transform data = Except.ok td) →
      (submitter cfg env data hasEvent prevFailed).rejected = none) ∧
    (∀ e, applyTransform cfg.transform data = Except.error e →
      (submitter cfg env data hasEvent prevFailed).rejected = some e) := by
  constructor
  · rintro ⟨td, h⟩
    simp only [submitter, h]
    split
    · rfl
    · split <;> split <;> rfl
  · intro e h
    simp only [submitter, h]

/-- C2 amended at a concrete input: with no transform configured the call
resolves (does not reject). -/
theorem submitter_rejects_iff_transform_throws_witness :
    (submitter
      { destination := .endpoint "/api", defaultValues := none, method := none,
        hasOnSuccess := false, hasOnFailure := false, hasOnError := false,
        transform := none, fetchOptions := ⟨none, none, []⟩, confirmation := none,
        hasMutate := false }
      { confirmAnswer := true, fetchResult := .error ⟨3⟩,
        destResult := .ok true }
      [("a", JsValue.num 1)] true false).rejected = none :=
  (submitter_rejects_iff_transform_throws _ _ _ _ _).1 ⟨_, rfl⟩

/-- In the `onFailure` variant each callback fires at most once and at most
one of the three fires. -/
theorem submitter_callback_exclusion (cfg : Config) (env : Env) (data : Record)
    (hasEvent prevFailed : Bool) :
    ((submitter cfg env data hasEvent prevFailed).onSuccessCalls.length ≤ 1 ∧
      (submitter cfg env data hasEvent prevFailed).onFailureCalls.length ≤ 1 ∧
      (submitter cfg env data hasEvent prevFailed).onErrorCalls.length ≤ 1) ∧
    (((submitter cfg env data hasEvent prevFailed).onSuccessCalls = [] ∧
        (submitter cfg env data hasEvent prevFailed).onFailureCalls = []) ∨
      ((submitter cfg env data hasEvent prevFailed).onSuccessCalls = [] ∧
        (submitter cfg env data hasEvent prevFailed).onErrorCalls = []) ∨
      ((submitter cfg env data hasEvent prevFailed).onFailureCalls = [] ∧
        (submitter cfg env data hasEvent prevFailed).onErrorCalls = [])) := by
  cases h : applyTransform cfg.transform data <;> simp only [submitter, h]
  · simp
  · repeat' split
    all_goals simp_all

/-- In the `reset` variant the success and error callbacks each fire at most
once and never both in one call. -/
theorem submitterReset_callback_exclusion (cfg : ConfigReset) (env : Env)
    (data : Record) (hasEvent prevFailed : Bool) :
    ((submitterReset cfg env data hasEvent prevFailed).onSuccessCalls.length ≤ 1 ∧
      (submitterReset cfg env data hasEvent prevFailed).onErrorCalls.length ≤ 1) ∧
    ((submitterReset cfg env data hasEvent prevFailed).onSuccessCalls = [] ∨
      (submitterReset cfg env data hasEvent prevFailed).onErrorCalls = []) := by
  cases h : applyTransform cfg.transform data <;> simp only [submitterReset, h]
  · simp
  · repeat' split
    all_goals try simp_all
    all_goals (cases hE : cfg.hasOnError <;> simp [hE])

/-- C3: in a single call of either variant, at most one of the success,
failure and error callbacks fires — never two — and the error callback can
only fire when neither the success nor the failure callback does. -/
theorem at_most_one_callback_per_call (cfg : Config) (cfgR : ConfigReset)
    (env envR : Env) (data dataR : Record)
    (hasEvent hasEventR prevFailed prevFailedR : Bool) :
    (((submitter cfg env data hasEvent prevFailed).onSuccessCalls.length ≤ 1 ∧
        (submitter cfg env data hasEvent prevFailed).onFailureCalls.length ≤ 1 ∧
        (submitter cfg env data hasEvent prevFailed).onErrorCalls.length ≤ 1) ∧
      (((submitter cfg env data hasEvent prevFailed).onSuccessCalls = [] ∧
          (submitter cfg env data hasEvent prevFailed).onFailureCalls = []) ∨
        ((submitter cfg env data hasEvent prevFailed).onSuccessCalls = [] ∧
          (submitter cfg env data hasEvent prevFailed).onErrorCalls = []) ∨
        ((submitter cfg env data hasEvent prevFailed).onFailureCalls = [] ∧
          (submitter cfg env data hasEvent prevFailed).onErrorCalls = []))) ∧
    (((submitterReset cfgR envR dataR hasEventR prevFailedR).onSuccessCalls.length ≤ 1 ∧
        (submitterReset cfgR envR dataR hasEventR prevFailedR).onErrorCalls.length ≤ 1) ∧
      ((submitterReset cfgR envR dataR hasEventR prevFailedR).onSuccessCalls = [] ∨
        (submitterReset cfgR envR dataR hasEventR prevFailedR).onErrorCalls = [])) :=
  ⟨submitter_callback_exclusion cfg env data hasEvent prevFailed,
    submitterReset_callback_exclusion cfgR envR dataR hasEventR prevFailedR⟩

/-- C4: when a confirmation message is configured and the user declines,
the call returns at once: no fetch, no destination call, none of the
success/failure/error/mutate callbacks, the prompt was shown, and the
failed flag keeps its previous value. -/
theorem confirmation_declined_aborts (cfg : Config) (env : Env) (data : Record)
    (hasEvent prevFailed : Bool) (td : Record)
    (hc : confirmationGate cfg.confirmation = true) (hd : env.confirmAnswer = false)
    (ht : applyTransform cfg.transform data = Except.ok td) :
    submitter cfg env data hasEvent prevFailed =
      { rejected := none, prevented := hasEvent, confirmPrompted := true,
        fetchCalls := [], destCalls := [], onSuccessCalls := [],
        onFailureCalls := [], onErrorCalls := [], mutateCalls := [],
        isFailed := prevFailed } := by
  simp [submitter, ht, hc, hd]

/-- C4 at a concrete input: declining the configured prompt leaves a
previously failed flag at `true` and fires nothing. -/
theorem confirmation_declined_aborts_witness :
    submitter
      { destination := .endpoint "/api", defaultValues := none, method := none,
        hasOnSuccess := true, hasOnFailure := true, hasOnError := true,
        transform := none, fetchOptions := ⟨none, none, []⟩, confirmation := some "sure?",
        hasMutate := true }
      { confirmAnswer := false, fetchResult := .ok ⟨true, 200⟩,
        destResult := .ok true }
      [("a", JsValue.num 1)] true true =
    { rejected := none, prevented := true, confirmPrompted := true,
      fetchCalls := [], destCalls := [], onSuccessCalls := [],
      onFailureCalls := [], onErrorCalls := [], mutateCalls := [],
      isFailed := true } :=
  confirmation_declined_aborts _ _ _ _ _ _ rfl rfl rfl

/-- C5: when dispatch completes without exception but reports non-success
(a response with `ok = false`, or a destination callback returning false),
the failed flag becomes true, `onFailure` fires with the transformed data
and the response (or no response in the callback case), and neither
`onSuccess` nor `mutate` fires. -/
theorem explicit_nonsuccess_routes_to_onFailure (cfg : Config) (env : Env)
    (data td : Record) (hasEvent prevFailed : Bool)
    (ht : applyTransform cfg.transform data = Except.ok td)
    (hcf : cfg.confirmation = none ∨ env.confirmAnswer = true)
    (hof : cfg.hasOnFailure = true) :
    (∀ url resp, cfg.destination = .endpoint url →
      env.fetchResult = .ok resp → resp.ok = false →
      (submitter cfg env data hasEvent prevFailed).isFailed = true ∧
      (submitter cfg env data hasEvent prevFailed).onFailureCalls = [(td, some resp)] ∧
      (submitter cfg env data hasEvent prevFailed).onSuccessCalls = [] ∧
      (submitter cfg env data hasEvent prevFailed).mutateCalls = []) ∧
    (cfg.destination = .callback → env.destResult = .ok false →
      (submitter cfg env data hasEvent prevFailed).isFailed = true ∧
      (submitter cfg env data hasEvent prevFailed).onFailureCalls = [(td, none)] ∧
      (submitter cfg env data hasEvent prevFailed).onSuccessCalls = [] ∧
      (submitter cfg env data hasEvent prevFailed).mutateCalls = []) := by
  have hgate : (confirmationGate cfg.confirmation && !env.confirmAnswer) = false := by
    rcases hcf with h | h <;> simp [h, confirmationGate]
  constructor
  · rintro url resp hdst hfetch hok
    simp [submitter, ht, hgate, hdst, hfetch, hok, hof]
  · rintro hdst hres
    simp [submitter, ht, hgate, hdst, hres, hof]

/-- C5 at a concrete input: a 400 non-ok response makes the flag true and
routes only to `onFailure` with the response attached. -/
theorem explicit_nonsuccess_routes_to_onFailure_witness :
    (submitter
      { destination := .endpoint "/api", defaultValues := none, method := none,
        hasOnSuccess := true, hasOnFailure := true, hasOnError := true,
        transform := none, fetchOptions := ⟨none, none, []⟩, confirmation := none,
        hasMutate := true }
      { confirmAnswer := true, fetchResult := .ok ⟨false, 400⟩,
        destResult := .ok true }
      [("a", JsValue.num 1)] false false).isFailed = true ∧
    (submitter
      { destination := .endpoint "/api", defaultValues := none, method := none,
        hasOnSuccess := true, hasOnFailure := true, hasOnError := true,
        transform := none, fetchOptions := ⟨none, none, []⟩, confirmation := none,
        hasMutate := true }
      { confirmAnswer := true, fetchResult := .ok ⟨false, 400⟩,
        destResult := .ok true }
      [("a", JsValue.num 1)] false false).onFailureCalls =
      [([("a", JsValue.num 1)], some ⟨false, 400⟩)] :=
  have h := (explicit_nonsuccess_routes_to_onFailure
    { destination := .endpoint "/api", defaultValues := none, method := none,
      hasOnSuccess := true, hasOnFailure := true, hasOnError := true,
      transform := none, fetchOptions := ⟨none, none, []⟩, confirmation := none,
      hasMutate := true }
    { confirmAnswer := true, fetchResult := .ok ⟨false, 400⟩,
      destResult := .ok true }
    [("a", JsValue.num 1)] [("a", JsValue.num 1)] false false rfl
    (Or.inl rfl) rfl).1 "/api" ⟨false, 400⟩ rfl rfl rfl
  ⟨h.1, h.2.1⟩

/-- C6 counterexample: the source spreads `fetchOptions` after the
constructed `method` and `body` (lines 77-81), so a `method` key in it
overrides the configured one: with no `method` option and
`fetchOptions = {method: "PUT"}`, `fetch` is issued with "PUT", not the
claimed default "POST". -/
theorem fetchOptions_method_overrides_post :
    (submitter
      { destination := .endpoint "/api", defaultValues := none, method := none,
        hasOnSuccess := true, hasOnFailure := false, hasOnError := false,
        transform := none, fetchOptions := ⟨some "PUT", none, []⟩,
        confirmation := none, hasMutate := false }
      { confirmAnswer := true, fetchResult := .ok ⟨true, 200⟩,
        destResult := .ok true }
      [("a", JsValue.str "x")] false true).fetchCalls =
      [{ url := "/api", method := "PUT",
         body := .form [("a", FormValue.str "x")], extra := [] }] ∧
    "PUT" ≠ "POST" :=
  ⟨rfl, by decide⟩

/-- C6 amended: on an endpoint destination (past the confirmation gate),
`fetch` is invoked exactly once, with the request produced by the spread:
the configured method — defaulting to "POST" when no method option is
given — and the encoded payload as body, except that a `method` or `body`
key in the caller's `fetchOptions`, spread after them, overrides the
corresponding constructed field; when `fetchOptions` carries neither key,
the method and body are exactly the configured ones.  When the response
reports success, `onSuccess` fires with the transformed data and the
response, and the failed flag becomes false. -/
theorem endpoint_fetch_once_and_success_path (cfg : Config) (env : Env)
    (data td : Record) (hasEvent prevFailed : Bool) (url : String)
    (ht : applyTransform cfg.transform data = Except.ok td)
    (hcf : cfg.confirmation = none ∨ env.confirmAnswer = true)
    (hdst : cfg.destination = .endpoint url) :
    (submitter cfg env data hasEvent prevFailed).fetchCalls =
      [{ url,
         method := cfg.fetchOptions.method.getD (cfg.method.getD "POST"),
         body := cfg.fetchOptions.body.getD
           (.form (to_form_data_without_default td cfg.defaultValues)),
         extra := cfg.fetchOptions.extra }] ∧
    (cfg.fetchOptions.method = none → cfg.fetchOptions.body = none →
      (submitter cfg env data hasEvent prevFailed).fetchCalls =
        [{ url, method := cfg.method.getD "POST",
           body := .form (to_form_data_without_default td cfg.defaultValues),
           extra := cfg.fetchOptions.extra }]) ∧
    (cfg.method = none → cfg.fetchOptions.method = none →
      (submitter cfg env data hasEvent prevFailed).fetchCalls.map
        FetchCall.method = ["POST"]) ∧
    (∀ resp, env.fetchResult = .ok resp → resp.ok = true →
      cfg.hasOnSuccess = true →
      (submitter cfg env data hasEvent prevFailed).onSuccessCalls =
        [(td, some resp)] ∧
      (submitter cfg env data hasEvent prevFailed).isFailed = false) := by
  have hgate : (confirmationGate cfg.confirmation && !env.confirmAnswer) = false := by
    rcases hcf with h | h <;> simp [h, confirmationGate]
  refine ⟨?_, ?_, ?_, ?_⟩
  · cases hf : env.fetchResult <;> simp [submitter, ht, hgate, hdst, hf]
  · intro hm hb
    cases hf : env.fetchResult <;>
      simp [submitter, ht, hgate, hdst, hf, hm, hb]
  · intro hm hom
    cases hf : env.fetchResult <;>
      simp [submitter, ht, hgate, hdst, hf, hm, hom]
  · rintro resp hf hok hs
    simp [submitter, ht, hgate, hdst, hf, hok, hs]

/-- C6 amended at a concrete input: a no-method config with empty
`fetchOptions` fetches once with "POST" and the encoded body, and a 200 ok
response fires `onSuccess` and clears the flag. -/
theorem endpoint_fetch_once_and_success_path_witness :
    (submitter
      { destination := .endpoint "/api", defaultValues := none, method := none,
        hasOnSuccess := true, hasOnFailure := false, hasOnError := false,
        transform := none, fetchOptions := ⟨none, none, []⟩, confirmation := none,
        hasMutate := false }
      { confirmAnswer := true, fetchResult := .ok ⟨true, 200⟩,
        destResult := .ok true }
      [("a", JsValue.str "x")] false true).fetchCalls =
      [{ url := "/api", method := "POST",
         body := .form [("a", FormValue.str "x")], extra := [] }] ∧
    (submitter
      { destination := .endpoint "/api", defaultValues := none, method := none,
        hasOnSuccess := true, hasOnFailure := false, hasOnError := false,
        transform := none, fetchOptions := ⟨none, none, []⟩, confirmation := none,
        hasMutate := false }
      { confirmAnswer := true, fetchResult := .ok ⟨true, 200⟩,
        destResult := .ok true }
      [("a", JsValue.str "x")] false true).onSuccessCalls =
      [([("a", JsValue.str "x")], some ⟨true, 200⟩)] ∧
    (submitter
      { destination := .endpoint "/api", defaultValues := none, method := none,
        hasOnSuccess := true, hasOnFailure := false, hasOnError := false,
        transform := none, fetchOptions := ⟨none, none, []⟩, confirmation := none,
        hasMutate := false }
      { confirmAnswer := true, fetchResult := .ok ⟨true, 200⟩,
        destResult := .ok true }
      [("a", JsValue.str "x")] false true).isFailed = false :=
  have h := endpoint_fetch_once_and_success_path
    { destination := .endpoint "/api", defaultValues := none, method := none,
      hasOnSuccess := true, hasOnFailure := false, hasOnError := false,
      transform := none, fetchOptions := ⟨none, none, []⟩, confirmation := none,
      hasMutate := false }
    { confirmAnswer := true, fetchResult := .ok ⟨true, 200⟩,
      destResult := .ok true }
    [("a", JsValue.str "x")] [("a", JsValue.str "x")] false true "/api" rfl
    (Or.inl rfl) rfl
  have hs := h.2.2.2 ⟨true, 200⟩ rfl rfl rfl
  ⟨h.2.1 rfl rfl, hs.1, hs.2⟩

/-- C9: in both variants, an exception caught inside the `try` block (from
the dispatch: a throwing `fetch` or a throwing destination callback) sets
the failed flag to true and routes only to `onError` (which receives the
exception exactly when configured); the success, failure and mutate
callbacks do not fire in that call. -/
theorem caught_exception_sets_flag_only_onError (cfg : Config)
    (cfgR : ConfigReset) (env envR : Env) (data td dataR tdR : Record)
    (hasEvent hasEventR prevFailed prevFailedR : Bool)
    (ht : applyTransform cfg.transform data = Except.ok td)
    (hcf : cfg.confirmation = none ∨ env.confirmAnswer = true)
    (htR : applyTransform cfgR.transform dataR = Except.ok tdR)
    (hcfR : cfgR.confirmation = none ∨ envR.confirmAnswer = true) :
    (∀ url e, cfg.destination = .endpoint url → env.fetchResult = .error e →
      (submitter cfg env data hasEvent prevFailed).isFailed = true ∧
      (submitter cfg env data hasEvent prevFailed).onErrorCalls =
        (if cfg.hasOnError then [e] else []) ∧
      (submitter cfg env data hasEvent prevFailed).onSuccessCalls = [] ∧
      (submitter cfg env data hasEvent prevFailed).onFailureCalls = [] ∧
      (submitter cfg env data hasEvent prevFailed).mutateCalls = []) ∧
    (∀ e, cfg.destination = .callback → env.destResult = .error e →
      (submitter cfg env data hasEvent prevFailed).isFailed = true ∧
      (submitter cfg env data hasEvent prevFailed).onErrorCalls =
        (if cfg.hasOnError then [e] else []) ∧
      (submitter cfg env data hasEvent prevFailed).onSuccessCalls = [] ∧
      (submitter cfg env data hasEvent prevFailed).onFailureCalls = [] ∧
      (submitter cfg env data hasEvent prevFailed).mutateCalls = []) ∧
    (∀ url e, cfgR.destination = .endpoint url → envR.fetchResult = .error e →
      (submitterReset cfgR envR dataR hasEventR prevFailedR).isFailed = true ∧
      (submitterReset cfgR envR dataR hasEventR prevFailedR).onErrorCalls =
        (if cfgR.hasOnError then [e] else []) ∧
      (submitterReset cfgR envR dataR hasEventR prevFailedR).onSuccessCalls = [] ∧
      (submitterReset cfgR envR dataR hasEventR prevFailedR).mutateCalls = []) ∧
    (∀ e, cfgR.destination = .callback → envR.destResult = .error e →
      (submitterReset cfgR envR dataR hasEventR prevFailedR).isFailed = true ∧
      (submitterReset cfgR envR dataR hasEventR prevFailedR).onErrorCalls =
        (if cfgR.hasOnError then [e] else []) ∧
      (submitterReset cfgR envR dataR hasEventR prevFailedR).onSuccessCalls = [] ∧
      (submitterReset cfgR envR dataR hasEventR prevFailedR).mutateCalls = []) := by
  have hgate : (confirmationGate cfg.confirmation && !env.confirmAnswer) = false := by
    rcases hcf with h | h <;> simp [h, confirmationGate]
  have hgateR : (confirmationGate cfgR.confirmation && !envR.confirmAnswer) = false := by
    rcases hcfR with h | h <;> simp [h, confirmationGate]
  refine ⟨?_, ?_, ?_, ?_⟩
  · rintro url e hdst hf
    simp [submitter, ht, hgate, hdst, hf]
  · rintro e hdst hf
    simp [submitter, ht, hgate, hdst, hf]
  · rintro url e hdst hf
    cases hOE : cfgR.hasOnError <;>
      simp [submitterReset, htR, hgateR, hdst, hf, hOE]
  · rintro e hdst hf
    cases hOE : cfgR.hasOnError <;>
      simp [submitterReset, htR, hgateR, hdst, hf, hOE]

/-- C9 at a concrete input: a throwing `fetch` with `onError` configured
fires it once with the exception and sets the flag. -/
theorem caught_exception_sets_flag_only_onError_witness :
    (submitter
      { destination := .endpoint "/api", defaultValues := none, method := none,
        hasOnSuccess := true, hasOnFailure := true, hasOnError := true,
        transform := none, fetchOptions := ⟨none, none, []⟩, confirmation := none,
        hasMutate := true }
      { confirmAnswer := true, fetchResult := .error ⟨5⟩, destResult := .ok true }
      [("a", JsValue.num 1)] false false).isFailed = true ∧
    (submitter
      { destination := .endpoint "/api", defaultValues := none, method := none,
        hasOnSuccess := true, hasOnFailure := true, hasOnError := true,
        transform := none, fetchOptions := ⟨none, none, []⟩, confirmation := none,
        hasMutate := true }
      { confirmAnswer := true, fetchResult := .error ⟨5⟩, destResult := .ok true }
      [("a", JsValue.num 1)] false false).onErrorCalls = [⟨5⟩] :=
  have h := (caught_exception_sets_flag_only_onError
    { destination := .endpoint "/api", defaultValues := none, method := none,
      hasOnSuccess := true, hasOnFailure := true, hasOnError := true,
      transform := none, fetchOptions := ⟨none, none, []⟩, confirmation := none,
      hasMutate := true }
    { destination := .callback, default_values := none, hasReset := false,
      method := none, hasOnSuccess := false, hasOnError := false,
      transform := none, fetch_options := ⟨none, none, []⟩, confirmation := none,
      hasMutate := false }
    { confirmAnswer := true, fetchResult := .error ⟨5⟩, destResult := .ok true }
    { confirmAnswer := true, fetchResult := .ok ⟨true, 200⟩,
      destResult := .error ⟨6⟩ }
    [("a", JsValue.num 1)] [("a", JsValue.num 1)] [] [] false false false false
    rfl (Or.inl rfl) rfl (Or.inl rfl)).1 "/api" ⟨5⟩ rfl rfl
  ⟨h.1, h.2.1.trans (by decide)⟩

/-- C7 counterexample: in the reset variant, after a success with baseline
`{age: 30}` and submitted data `{age: 31}`, `mutate` receives `{age: 30}` —
the baseline value is kept although a new value is present (the source only
overwrites an entry when the old or the new value is `== undefined`), so
`mutate` does not receive the claimed `{age: 31}`. -/
theorem mutate_keeps_defined_baseline_value :
    (submitterReset
      { destination := .callback, default_values := some [("age", JsValue.num 30)],
        hasReset := false, method := none, hasOnSuccess := false,
        hasOnError := false, transform := none, fetch_options := ⟨none, none, []⟩,
        confirmation := none, hasMutate := true }
      { confirmAnswer := true, fetchResult := .ok ⟨true, 200⟩,
        destResult := .ok true }
      [("age", JsValue.num 31)] false false).mutateCalls =
      [[("age", JsValue.num 30)]] ∧
    ([[("age", JsValue.num 30)]] : List Record) ≠ [[("age", JsValue.num 31)]] :=
  ⟨rfl, by decide⟩

/-- C7 amended: in the reset variant, after an explicit success with a
mutate callback configured, `mutate` receives — when a baseline is
configured — the baseline with each entry overwritten by the submitted
value exactly when the old (baseline) value or the new (submitted) value is
undefined or null, entries with both values defined keeping the baseline
value; without a baseline it receives the full transformed data. -/
theorem mutate_receives_nullish_merged_baseline (cfg : ConfigReset) (env : Env)
    (data td : Record) (hasEvent prevFailed : Bool)
    (ht : applyTransform cfg.transform data = Except.ok td)
    (hcf : cfg.confirmation = none ∨ env.confirmAnswer = true)
    (hm : cfg.hasMutate = true)
    (hsucc : (cfg.destination = .callback ∧ env.destResult = .ok true) ∨
      (∃ url resp, cfg.destination = .endpoint url ∧
        env.fetchResult = .ok resp ∧ resp.ok = true)) :
    (submitterReset cfg env data hasEvent prevFailed).mutateCalls =
      [mutate_data td cfg.default_values] ∧
    (∀ dv : Record, mutate_data td (some dv) =
      dv.map (fun kv =>
        if kv.2.isNullish || (td.lookupD kv.1).isNullish
        then (kv.1, td.lookupD kv.1) else kv)) ∧
    mutate_data td none = td := by
  have hgate : (confirmationGate cfg.confirmation && !env.confirmAnswer) = false := by
    rcases hcf with h | h <;> simp [h, confirmationGate]
  refine ⟨?_, fun dv => rfl, rfl⟩
  rcases hsucc with ⟨hdst, hres⟩ | ⟨url, resp, hdst, hres, hok⟩
  · simp [submitterReset, ht, hgate, hdst, hres, hm]
  · simp [submitterReset, ht, hgate, hdst, hres, hok, hm]

/-- C7 amended at a concrete input: with baseline `{age: 30}` and data
`{age: 31}` the merged value keeps `age = 30`. -/
theorem mutate_receives_nullish_merged_baseline_witness :
    (submitterReset
      { destination := .callback, default_values := some [("age", JsValue.num 30)],
        hasReset := false, method := none, hasOnSuccess := false,
        hasOnError := false, transform := none, fetch_options := ⟨none, none, []⟩,
        confirmation := none, hasMutate := true }
      { confirmAnswer := true, fetchResult := .ok ⟨true, 200⟩,
        destResult := .ok true }
      [("age", JsValue.num 31)] false false).mutateCalls =
      [mutate_data [("age", JsValue.num 31)] (some [("age", JsValue.num 30)])] :=
  (mutate_receives_nullish_merged_baseline
    { destination := .callback, default_values := some [("age", JsValue.num 30)],
      hasReset := false, method := none, hasOnSuccess := false,
      hasOnError := false, transform := none, fetch_options := ⟨none, none, []⟩,
      confirmation := none, hasMutate := true }
    { confirmAnswer := true, fetchResult := .ok ⟨true, 200⟩,
      destResult := .ok true }
    [("age", JsValue.num 31)] [("age", JsValue.num 31)] false false rfl
    (Or.inl rfl) rfl (Or.inl ⟨rfl, rfl⟩)).1

/-- C10: in the reset variant, when a baseline and a mutate callback are
configured, a successful submission writes through the caller's
`default_values` object: `mutate` receives exactly the value the baseline
object holds after the call (the source aliases the object and assigns
into it), with each entry overwritten by the submitted value — possibly
undefined — precisely at the baseline keys where the old or the new value
is undefined or null. -/
theorem mutate_updates_defaults_in_place (cfg : ConfigReset) (env : Env)
    (data td dv : Record) (hasEvent prevFailed : Bool)
    (ht : applyTransform cfg.transform data = Except.ok td)
    (hcf : cfg.confirmation = none ∨ env.confirmAnswer = true)
    (hm : cfg.hasMutate = true) (hdv : cfg.default_values = some dv)
    (hsucc : (cfg.destination = .callback ∧ env.destResult = .ok true) ∨
      (∃ url resp, cfg.destination = .endpoint url ∧
        env.fetchResult = .ok resp ∧ resp.ok = true)) :
    (submitterReset cfg env data hasEvent prevFailed).mutateCalls =
      [mutate_data td (some dv)] ∧
    (submitterReset cfg env data hasEvent prevFailed).defaultValuesAfter =
      some (mutate_data td (some dv)) ∧
    mutate_data td (some dv) =
      dv.map (fun kv =>
        if kv.2.isNullish || (td.lookupD kv.1).isNullish
        then (kv.1, td.lookupD kv.1) else kv) := by
  have hgate : (confirmationGate cfg.confirmation && !env.confirmAnswer) = false := by
    rcases hcf with h | h <;> simp [h, confirmationGate]
  refine ⟨?_, ?_, rfl⟩ <;>
    rcases hsucc with ⟨hdst, hres⟩ | ⟨url, resp, hdst, hres, hok⟩ <;>
    simp [submitterReset, ht, hgate, hdst, hres, hm, hdv] <;>
    simp [hok]

/-- C10 at a concrete input: baseline `{name: undefined, age: 30}` with
submitted `{name: "N", age: 31}` leaves the baseline object holding
`{name: "N", age: 30}` — changed from its previous content — and `mutate`
receives that same value. -/
theorem mutate_updates_defaults_in_place_witness :
    (submitterReset
      { destination := .callback,
        default_values := some [("name", JsValue.undefined), ("age", JsValue.num 30)],
        hasReset := false, method := none, hasOnSuccess := false,
        hasOnError := false, transform := none, fetch_options := ⟨none, none, []⟩,
        confirmation := none, hasMutate := true }
      { confirmAnswer := true, fetchResult := .ok ⟨true, 200⟩,
        destResult := .ok true }
      [("name", JsValue.str "N"), ("age", JsValue.num 31)] false
      false).defaultValuesAfter =
      some [("name", JsValue.str "N"), ("age", JsValue.num 30)] ∧
    some [("name", JsValue.str "N"), ("age", JsValue.num 30)] ≠
      some [("name", JsValue.undefined), ("age", JsValue.num 30)] :=
  have h := mutate_updates_defaults_in_place
    { destination := .callback,
      default_values := some [("name", JsValue.undefined), ("age", JsValue.num 30)],
      hasReset := false, method := none, hasOnSuccess := false,
      hasOnError := false, transform := none, fetch_options := ⟨none, none, []⟩,
      confirmation := none, hasMutate := true }
    { confirmAnswer := true, fetchResult := .ok ⟨true, 200⟩,
      destResult := .ok true }
    [("name", JsValue.str "N"), ("age", JsValue.num 31)]
    [("name", JsValue.str "N"), ("age", JsValue.num 31)]
    [("name", JsValue.undefined), ("age", JsValue.num 30)] false false rfl
    (Or.inl rfl) rfl rfl (Or.inl ⟨rfl, rfl⟩)
  ⟨h.2.1.trans (by decide), by decide⟩
